import Mathlib

/-!
Verification development for the mail_agent repository.

The definitions below are shallow embeddings of the Python sources:
`src/config.py` (folder configuration), `src/mailer.py` (the IMAP/SMTP
client `EmailClient`) and `src/tasks.py` (the task layer `TaskExecutor`).
Stateful IMAP interaction is modelled by explicit environment records
(outcomes of the individual protocol commands) plus, where a claim is
about command ordering, an explicit trace of issued commands.  Fallible
Python code that catches exceptions is modelled with `Except`/`Option`.
-/

namespace MailAgent

-- Configuration constants from `src/config.py` (class `Config`).
namespace Config

/-- `Config.DEFAULT_FOLDER` in `src/config.py`. -/
def DEFAULT_FOLDER : String := "INBOX"

/-- `Config.FOLDER_NAMES` in `src/config.py`: semantic folder role to
ordered candidate folder names. -/
def FOLDER_NAMES : List (String × List String) :=
  [ ("sent",    ["Sent Messages", "&XfJT0ZAB-", "已发送", "Sent"]),
    ("drafts",  ["Drafts", "&g0l6P3ux-", "草稿箱", "Draft"]),
    ("spam",    ["Junk", "&V4NXPpCuTvY-", "垃圾邮件", "Spam"]),
    ("trash",   ["Deleted Messages", "&XfJSIJZk-", "已删除", "Trash"]),
    ("archive", ["Archive", "&dcVr0mWHTvZZOQ-", "归档"]),
    ("starred", ["Starred", "星标邮件", "Flagged"]) ]

/-- `Config.ARCHIVE_FOLDER = FOLDER_NAMES["archive"][0]`. -/
def ARCHIVE_FOLDER : String := "Archive"

end Config

/-- The email-info dictionary built by `EmailClient.get_email`
(`src/mailer.py`).  `index` and `originalUid` model the `"index"` and
`"original_uid"` keys that are added later by `get_recent_emails` /
`_get_email_by_id`; they are absent (`none`) on a bare fetch. -/
structure EmailInfo where
  id : String
  subject : String
  fromAddr : String
  fromName : String
  date : Nat
  body : String
  seen : Bool
  flagged : Bool
  index : Option Nat
  originalUid : Option String
deriving DecidableEq

/-- Abstract IMAP mailbox environment for the default (INBOX) folder, as
observed by `EmailClient` in `src/mailer.py`: the result of the
`SINCE`-window search, the result of the unbounded `ALL` search (each with
an OK flag), and the per-UID outcome of `get_email` (`none` models a
non-OK fetch or an exception, both of which `get_email` turns into
`None`). -/
structure MailServer where
  sinceOk : Bool
  searchSince : List String
  allOk : Bool
  searchAll : List String
  fetch : String → Option EmailInfo

/-- The search-result selection in `EmailClient.get_recent_emails`
(`src/mailer.py` lines 548-558): use the `SINCE` search when it succeeded
and is non-empty, otherwise fall back to the `ALL` search; if that also
fails return nothing. -/
def searchIds (s : MailServer) : Option (List String) :=
  if s.sinceOk && !s.searchSince.isEmpty then some s.searchSince
  else if s.allOk then some s.searchAll
  else none

/-- Python's `email_ids[-count:]`.  For `count = 0` the slice `[-0:]` is
the whole list, not the empty list. -/
def lastSlice (l : List String) (count : Nat) : List String :=
  if count == 0 then l else l.drop (l.length - count)

/-- The listing loop of `EmailClient.get_recent_emails` (`src/mailer.py`
lines 574-586) on the default INBOX path (no starred filtering): walk the
newest-first UID list with a 1-based enumeration counter, fetch each
message, skip fetch failures (the counter still advances, as Python's
`enumerate` does), and stamp `index`/`original_uid` on each hit. -/
def collectEmails (s : MailServer) : List String → Nat → List EmailInfo
  | [], _ => []
  | uid :: rest, i =>
    match s.fetch uid with
    | some info =>
        { info with index := some i, originalUid := some uid } ::
          collectEmails s rest (i + 1)
    | none => collectEmails s rest (i + 1)

/-- `EmailClient.get_recent_emails(count)` (`src/mailer.py` lines
500-592) for the default INBOX folder. -/
def getRecentEmails (s : MailServer) (count : Nat) : List EmailInfo :=
  match searchIds s with
  | none => []
  | some ids =>
    if ids.isEmpty then []
    else
      let recent := if count < ids.length then lastSlice ids count else ids
      collectEmails s recent.reverse 1

/-- `EmailClient.get_email_by_index(index, count)` (`src/mailer.py` lines
594-615): fetch a snapshot of size `max(count, index)` and take the
1-based `index`-th entry, `None` when out of range. -/
def getEmailByIndex (s : MailServer) (index : Nat) (count : Nat := 50) :
    Option EmailInfo :=
  let emails := getRecentEmails s (max count index)
  if emails.isEmpty || index < 1 || emails.length < index then none
  else emails[index - 1]?

/-- Python's `str.isdigit()` restricted to ASCII digit strings, which is
what the task layer feeds it.  (Character-list based so that it
evaluates inside the kernel.) -/
def isDigitString (t : String) : Bool :=
  !t.data.isEmpty && t.data.all Char.isDigit

/-- Python's `int(...)` on a digit string. -/
def strToNat (t : String) : Nat :=
  t.data.foldl (fun n c => n * 10 + (c.toNat - 48)) 0

/-- ASCII lower-casing (Python's `str.lower()` for the inputs that occur
here), character-list based so that it evaluates inside the kernel. -/
def strLower (s : String) : String := ⟨s.data.map Char.toLower⟩

/-- ASCII upper-casing (Python's `str.upper()`). -/
def strUpper (s : String) : String := ⟨s.data.map Char.toUpper⟩

/-- Boolean prefix test on character lists (Python's
`str.startswith`). -/
def listStartsWith : List Char → List Char → Bool
  | [], _ => true
  | _ :: _, [] => false
  | a :: as, b :: bs => a == b && listStartsWith as bs

/-- Boolean suffix test (Python's `str.endswith`). -/
def strEndsWith (s suffix : String) : Bool :=
  listStartsWith suffix.data.reverse s.data.reverse

/-- Boolean contiguous-substring test on character lists (Python's `in`
on strings). -/
def listContainsSeq (needle : List Char) : List Char → Bool
  | [] => listStartsWith needle []
  | h :: t => listStartsWith needle (h :: t) || listContainsSeq needle t

/-- `TaskExecutor._get_email_by_id` (`src/tasks.py` lines 97-126):
`"latest"` takes the head of a 1-item snapshot; every other token is
FIRST tried as an IMAP UID by a direct fetch (stamping `original_uid`),
and only if that fails and the token is all digits is it re-interpreted
as a 1-based newest-first ordinal via `get_email_by_index`. -/
def getEmailById (s : MailServer) (emailId : String) : Option EmailInfo :=
  if emailId = "latest" then
    match getRecentEmails s 1 with
    | [] => none
    | e :: _ => some e
  else
    match s.fetch emailId with
    | some info => some { info with originalUid := some emailId }
    | none =>
      if isDigitString emailId then getEmailByIndex s (strToNat emailId) 50
      else none

/-- `TaskExecutor._get_emails_by_ids` (`src/tasks.py` lines 128-143):
resolve each id, keeping only the hits, in input order. -/
def getEmailsByIds (s : MailServer) (emailIds : List String) :
    List EmailInfo :=
  emailIds.filterMap (getEmailById s)

/-- The timestamp the fetch of a UID would report (0 when the fetch
misses); used only to state ordering hypotheses about the server's
search results. -/
def dateOf (s : MailServer) (uid : String) : Nat :=
  match s.fetch uid with
  | some e => e.date
  | none => 0

/-- One per-item entry of a batch report (`{"recipient"/"email_id": _,
"status": _}` dictionaries built in the `batch_*` methods of
`src/mailer.py`). -/
structure BatchItem where
  target : String
  status : String
deriving DecidableEq

/-- The aggregate dictionary returned by each `batch_*` method of
`src/mailer.py`: `{"total", "success", "failed", "results"}`. -/
structure BatchReport where
  total : Nat
  success : Nat
  failed : Nat
  results : List BatchItem
deriving DecidableEq

/-- The `data` payload of a task result envelope (`src/tasks.py`):
either a batch report with extra key/value fields, or a plain mapping of
string fields. -/
inductive DataVal where
  | batch (total success failed : Nat) (results : List BatchItem)
      (extra : List (String × String))
  | fields (kv : List (String × String))
deriving DecidableEq

/-- The `{success, message, data}` result envelope produced by every
`TaskExecutor` handler (`src/tasks.py`). -/
structure TaskResult where
  success : Bool
  message : String
  data : Option DataVal
deriving DecidableEq

/-- Per-item status string as produced by the loop body of each batch
method in `src/mailer.py`: the operation's done-state name on `True`,
`"failed"` on `False`, `"error: <detail>"` on an exception. -/
def itemStatus (okStatus : String) : Except String Bool → String
  | .ok true => okStatus
  | .ok false => "failed"
  | .error e => "error: " ++ e

/-- The shared loop shape of `batch_forward_email`, `batch_archive_emails`,
`batch_delete_emails`, `batch_mark_as_read`, `batch_mark_as_unread`
(`src/mailer.py` lines 966-1144): per item, run the operation inside a
`try`, count success/failure, and append one result entry; an exception
is recorded as that item's failure and the loop continues.  Returns
(success count, failure count, result entries in input order). -/
def batchLoop (outcome : String → Except String Bool) (okStatus : String) :
    List String → Nat × Nat × List BatchItem
  | [] => (0, 0, [])
  | x :: xs =>
    let r := batchLoop outcome okStatus xs
    match outcome x with
    | .ok true => (r.1 + 1, r.2.1, ⟨x, okStatus⟩ :: r.2.2)
    | .ok false => (r.1, r.2.1 + 1, ⟨x, "failed"⟩ :: r.2.2)
    | .error e => (r.1, r.2.1 + 1, ⟨x, "error: " ++ e⟩ :: r.2.2)

/-- `EmailClient.batch_forward_email` (`src/mailer.py` lines 966-1005);
`outcome recipient` abstracts one `forward_email` call (after the
per-recipient SMTP reconnect), which may return a `bool` or raise. -/
def batchForwardEmail (outcome : String → Except String Bool)
    (recipients : List String) : BatchReport :=
  let r := batchLoop outcome "success" recipients
  ⟨recipients.length, r.1, r.2.1, r.2.2⟩

/-- `EmailClient.batch_archive_emails` (`src/mailer.py` lines 1007-1042);
`outcome uid folderName` abstracts one `archive_email_to_folder` call. -/
def batchArchiveEmails (outcome : String → String → Except String Bool)
    (emailIds : List String) (folderName : String) : BatchReport :=
  let r := batchLoop (fun uid => outcome uid folderName) "archived" emailIds
  ⟨emailIds.length, r.1, r.2.1, r.2.2⟩

/-- `EmailClient.batch_delete_emails` (`src/mailer.py` lines 1044-1076). -/
def batchDeleteEmails (outcome : String → Except String Bool)
    (emailIds : List String) : BatchReport :=
  let r := batchLoop outcome "deleted" emailIds
  ⟨emailIds.length, r.1, r.2.1, r.2.2⟩

/-- `EmailClient.batch_mark_as_read` (`src/mailer.py` lines 1078-1110). -/
def batchMarkAsRead (outcome : String → Except String Bool)
    (emailIds : List String) : BatchReport :=
  let r := batchLoop outcome "marked_read" emailIds
  ⟨emailIds.length, r.1, r.2.1, r.2.2⟩

/-- `EmailClient.batch_mark_as_unread` (`src/mailer.py` lines 1112-1144). -/
def batchMarkAsUnread (outcome : String → Except String Bool)
    (emailIds : List String) : BatchReport :=
  let r := batchLoop outcome "marked_unread" emailIds
  ⟨emailIds.length, r.1, r.2.1, r.2.2⟩

/-- `TaskExecutor._archive_emails_by_ids` (`src/tasks.py` lines 296-334):
resolve the ids, bail out with a failure envelope when nothing resolved,
otherwise run the mailer batch over the resolved original UIDs. -/
def archiveEmailsByIdsTask (s : MailServer)
    (outcome : String → String → Except String Bool)
    (emailIds : List String) (folderName : String) : TaskResult :=
  let emails := getEmailsByIds s emailIds
  if emails.isEmpty then ⟨false, "没有找到邮件", none⟩
  else
    let originalUids := emails.filterMap EmailInfo.originalUid
    let r := batchArchiveEmails outcome originalUids folderName
    ⟨true,
     "批量归档完成，成功归档 " ++ toString r.success ++ " 封邮件到 " ++
       folderName ++ "，失败 " ++ toString r.failed ++ " 封",
     some (.batch r.total r.success r.failed r.results
       [("folder_name", folderName)])⟩

/-- `TaskExecutor._delete_emails_by_ids` (`src/tasks.py` lines 431-465). -/
def deleteEmailsByIdsTask (s : MailServer)
    (outcome : String → Except String Bool)
    (emailIds : List String) : TaskResult :=
  let emails := getEmailsByIds s emailIds
  if emails.isEmpty then ⟨false, "没有找到邮件", none⟩
  else
    let originalUids := emails.filterMap EmailInfo.originalUid
    let r := batchDeleteEmails outcome originalUids
    ⟨true,
     "批量删除完成，成功删除 " ++ toString r.success ++ " 封邮件，失败 " ++
       toString r.failed ++ " 封",
     some (.batch r.total r.success r.failed r.results [])⟩

/-- `TaskExecutor._NON_REPLYABLE_ADDRESSES` (`src/tasks.py` lines 19-41). -/
def nonReplyableAddresses : List String :=
  [ "10000@qq.com", "no-reply@", "noreply@", "donotreply@", "do-not-reply@",
    "notification@", "notifications@", "alert@", "alerts@", "info@",
    "support@", "help@", "admin@", "administrator@", "mailer-daemon@",
    "postmaster@", "root@", "server@", "system@", "auto@", "automated@" ]

/-- The non-replyable check inside `TaskExecutor.reply_to_email`
(`src/tasks.py` lines 177-190): lower-case the sender; a pattern ending
in `"@"` matches as a prefix, any other pattern matches exactly.
(Python iterates a set and breaks on the first hit; the boolean outcome
is order-independent, so it is modelled with `List.any`.) -/
def isNonReplyable (fromAddress : String) : Bool :=
  let fa := strLower fromAddress
  nonReplyableAddresses.any fun pat =>
    if strEndsWith pat "@" then listStartsWith pat.data fa.data
    else fa == pat

/-- The `while attempt < max_attempts` loop of
`TaskExecutor.reply_to_email` (`src/tasks.py` lines 168-201), with the
remaining attempt budget as fuel: resolve `str(int(token)+attempt)` (or
the token itself when it is not all digits), stop with `none` when
resolution fails, stop with the message when its sender is replyable,
otherwise advance to the next attempt.  `none` covers both exits that
lead to the failure branch (`email_info` missing or nothing replyable). -/
def findReplyable (s : MailServer) (origId : String) :
    Nat → Nat → Option EmailInfo
  | 0, _ => none
  | fuel + 1, attempt =>
    let current :=
      if isDigitString origId then toString (strToNat origId + attempt)
      else origId
    match getEmailById s current with
    | none => none
    | some info =>
      if isNonReplyable info.fromAddr then
        findReplyable s origId fuel (attempt + 1)
      else some info

/-- One line of the recent-email listing built in the failure branch of
`TaskExecutor.reply_to_email` (`src/tasks.py` lines 206-209). -/
def emailListing (emails : List EmailInfo) : List String :=
  (List.enumFrom 1 emails).map fun p =>
    toString p.1 ++ ". " ++ p.2.subject ++ " (来自: " ++ p.2.fromAddr ++ ")"

/-- The failure envelope of `TaskExecutor.reply_to_email` (`src/tasks.py`
lines 202-216): success=false plus a listing of the 5 most recent
messages. -/
def replyFailureListing (s : MailServer) (emailId : String) : TaskResult :=
  ⟨false,
   "无法回复邮件: " ++ emailId ++ "。该地址可能无法接收回复。\n\n最近的邮件列表:\n" ++
     String.intercalate "\n" (emailListing (getRecentEmails s 5)),
   none⟩

/-- The reply text selection of `TaskExecutor.reply_to_email`
(`src/tasks.py` lines 219-221): an absent or empty custom reply is
replaced by generated content. -/
def replyContent (gen : String → String) (customReply : Option String)
    (info : EmailInfo) : String :=
  match customReply with
  | some r => if r.data.isEmpty then gen info.body else r
  | none => gen info.body

/-- `TaskExecutor.reply_to_email` (`src/tasks.py` lines 145-237).
`sendOk addr content` abstracts `EmailClient.send_reply` success; `gen`
abstracts the AI reply generator.  The second component lists the
deliveries actually made (recipient, content). -/
def replyToEmail (s : MailServer) (sendOk : String → String → Bool)
    (gen : String → String) (emailId : String)
    (customReply : Option String) : TaskResult × List (String × String) :=
  let maxAttempts := if isDigitString emailId then 5 else 1
  match findReplyable s emailId maxAttempts 0 with
  | none => (replyFailureListing s emailId, [])
  | some info =>
    let reply := replyContent gen customReply info
    if sendOk info.fromAddr reply then
      (⟨true, "已成功回复邮件: " ++ info.subject,
        some (.fields [("email_id", emailId), ("subject", info.subject),
                       ("reply_content", reply)])⟩,
       [(info.fromAddr, reply)])
    else (⟨false, "回复邮件失败", none⟩, [])

/-- A protocol command issued against the IMAP connection, as recorded in
the traces of the single-message operations of `src/mailer.py`.  Each
data command carries the mailbox selected at the moment it is issued
(`none` when nothing has been selected yet). -/
inductive Cmd where
  | select (folder : String)
  | fetch (selected : Option String) (emailId : String)
  | copy (selected : Option String) (emailId : String) (target : String)
  | store (selected : Option String) (emailId : String)
      (flagsOp : String) (flag : String)
  | expunge (selected : Option String)
deriving DecidableEq

/-- Environment of protocol-command outcomes consumed by the
single-message operations of `src/mailer.py`.  `selectRes` is a raw
`imaplib` `select` (it may raise, otherwise it returns a status string
that the callers in `delete_email`/`archive_email_to_folder`/`mark_*` do
not check); `selectProc` is the overall boolean outcome of the
`_select_folder` helper used by `get_email` (its internal retry loop
always re-targets the same folder argument, so one boolean per folder
suffices for these claims). -/
structure ImapEnv where
  connected : Bool
  connectOk : Bool
  ensureOk : Bool
  selectProc : String → Bool
  selectRes : String → Except String String
  fetchRes : String → Option EmailInfo
  copyRes : String → String → Except String String
  storeRes : String → String → String → Except String Unit
  expungeRes : Except String Unit

/-- The mailbox selected after a raw `select` returning status `st` from
a state where `sel` was selected: only an `"OK"` status switches the
selection. -/
def selAfter (sel : Option String) (st : String) : Option String :=
  if st = "OK" then some Config.DEFAULT_FOLDER else sel

/-- `EmailClient.get_email` (`src/mailer.py` lines 424-498) as a trace
machine: ensure the connection, `_select_folder(Config.DEFAULT_FOLDER)`,
then fetch; any failure yields `None`. -/
def getEmailOp (env : ImapEnv) (_sel : Option String) (emailId : String) :
    Option EmailInfo × List Cmd :=
  if !env.ensureOk then (none, [])
  else if !env.selectProc Config.DEFAULT_FOLDER then
    (none, [.select Config.DEFAULT_FOLDER])
  else
    let sel2 : Option String := some Config.DEFAULT_FOLDER
    match env.fetchRes emailId with
    | none => (none, [.select Config.DEFAULT_FOLDER, .fetch sel2 emailId])
    | some info =>
      (some { info with id := emailId },
       [.select Config.DEFAULT_FOLDER, .fetch sel2 emailId])

/-- `EmailClient.delete_email` (`src/mailer.py` lines 746-775):
connect if needed, `select(Config.DEFAULT_FOLDER)` (status unchecked),
store `\Deleted`, expunge; every exception is caught and yields `False`. -/
def deleteEmailOp (env : ImapEnv) (sel : Option String) (emailId : String) :
    Bool × List Cmd :=
  if !env.connected && !env.connectOk then (false, [])
  else
    match env.selectRes Config.DEFAULT_FOLDER with
    | .error _ => (false, [.select Config.DEFAULT_FOLDER])
    | .ok st =>
      let sel2 := selAfter sel st
      match env.storeRes emailId "+FLAGS" "\\Deleted" with
      | .error _ =>
        (false, [.select Config.DEFAULT_FOLDER,
                 .store sel2 emailId "+FLAGS" "\\Deleted"])
      | .ok _ =>
        match env.expungeRes with
        | .error _ =>
          (false, [.select Config.DEFAULT_FOLDER,
                   .store sel2 emailId "+FLAGS" "\\Deleted", .expunge sel2])
        | .ok _ =>
          (true, [.select Config.DEFAULT_FOLDER,
                  .store sel2 emailId "+FLAGS" "\\Deleted", .expunge sel2])

/-- `EmailClient.archive_email_to_folder` (`src/mailer.py` lines
709-744): connect if needed, `select(Config.DEFAULT_FOLDER)` (status
unchecked), copy to the target folder, and only when the copy reports
`"OK"` store `\Deleted` and expunge; any exception yields `False`. -/
def archiveEmailToFolderOp (env : ImapEnv) (sel : Option String)
    (emailId folderName : String) : Bool × List Cmd :=
  if !env.connected && !env.connectOk then (false, [])
  else
    match env.selectRes Config.DEFAULT_FOLDER with
    | .error _ => (false, [.select Config.DEFAULT_FOLDER])
    | .ok st =>
      let sel2 := selAfter sel st
      match env.copyRes emailId folderName with
      | .error _ =>
        (false, [.select Config.DEFAULT_FOLDER,
                 .copy sel2 emailId folderName])
      | .ok cst =>
        if cst = "OK" then
          match env.storeRes emailId "+FLAGS" "\\Deleted" with
          | .error _ =>
            (false, [.select Config.DEFAULT_FOLDER,
                     .copy sel2 emailId folderName,
                     .store sel2 emailId "+FLAGS" "\\Deleted"])
          | .ok _ =>
            match env.expungeRes with
            | .error _ =>
              (false, [.select Config.DEFAULT_FOLDER,
                       .copy sel2 emailId folderName,
                       .store sel2 emailId "+FLAGS" "\\Deleted",
                       .expunge sel2])
            | .ok _ =>
              (true, [.select Config.DEFAULT_FOLDER,
                      .copy sel2 emailId folderName,
                      .store sel2 emailId "+FLAGS" "\\Deleted",
                      .expunge sel2])
        else
          (false, [.select Config.DEFAULT_FOLDER,
                   .copy sel2 emailId folderName])

/-- `EmailClient.move_email_to_folder` (`src/mailer.py` lines 879-890):
a direct delegation to `archive_email_to_folder`. -/
def moveEmailToFolderOp (env : ImapEnv) (sel : Option String)
    (emailId folderName : String) : Bool × List Cmd :=
  archiveEmailToFolderOp env sel emailId folderName

/-- `EmailClient.mark_email_as_read` (`src/mailer.py` lines 831-853). -/
def markEmailAsReadOp (env : ImapEnv) (sel : Option String)
    (emailId : String) : Bool × List Cmd :=
  if !env.connected && !env.connectOk then (false, [])
  else
    match env.selectRes Config.DEFAULT_FOLDER with
    | .error _ => (false, [.select Config.DEFAULT_FOLDER])
    | .ok st =>
      let sel2 := selAfter sel st
      match env.storeRes emailId "+FLAGS" "\\Seen" with
      | .error _ =>
        (false, [.select Config.DEFAULT_FOLDER,
                 .store sel2 emailId "+FLAGS" "\\Seen"])
      | .ok _ =>
        (true, [.select Config.DEFAULT_FOLDER,
                .store sel2 emailId "+FLAGS" "\\Seen"])

/-- `EmailClient.mark_email_as_unread` (`src/mailer.py` lines 855-877). -/
def markEmailAsUnreadOp (env : ImapEnv) (sel : Option String)
    (emailId : String) : Bool × List Cmd :=
  if !env.connected && !env.connectOk then (false, [])
  else
    match env.selectRes Config.DEFAULT_FOLDER with
    | .error _ => (false, [.select Config.DEFAULT_FOLDER])
    | .ok st =>
      let sel2 := selAfter sel st
      match env.storeRes emailId "-FLAGS" "\\Seen" with
      | .error _ =>
        (false, [.select Config.DEFAULT_FOLDER,
                 .store sel2 emailId "-FLAGS" "\\Seen"])
      | .ok _ =>
        (true, [.select Config.DEFAULT_FOLDER,
                .store sel2 emailId "-FLAGS" "\\Seen"])

/-- The folders targeted by the `select` commands of a trace. -/
def selectTargets (tr : List Cmd) : List String :=
  tr.filterMap fun c =>
    match c with
    | .select f => some f
    | _ => none

/-- The selected-mailbox context of every non-`select` (data) command of
a trace. -/
def dataFolders (tr : List Cmd) : List (Option String) :=
  tr.filterMap fun c =>
    match c with
    | .select _ => none
    | .fetch s _ => some s
    | .copy s _ _ => some s
    | .store s _ _ _ => some s
    | .expunge s => some s

/-- Whether a trace contains the add-`\Deleted`-flag command for
`emailId`. -/
def issuesDeleteFlag (tr : List Cmd) (emailId : String) : Bool :=
  tr.any fun c =>
    match c with
    | .store _ i op fl => i == emailId && op == "+FLAGS" && fl == "\\Deleted"
    | _ => false

/-- Whether a trace contains an expunge command. -/
def issuesExpunge (tr : List Cmd) : Bool :=
  tr.any fun c =>
    match c with
    | .expunge _ => true
    | _ => false

/-- Lookup in a `List (String × α)`-encoded mapping. -/
def listLookup (m : List (String × List String)) (k : String) :
    Option (List String) :=
  (m.find? fun kv => kv.1 == k).map fun kv => kv.2

/-- The candidate names consulted by `_find_folder` for a folder type:
`Config.FOLDER_NAMES.get(folder_type.lower(), [folder_type])`. -/
def folderCandidates (folderType : String) : List String :=
  (listLookup Config.FOLDER_NAMES (strLower folderType)).getD [folderType]

/-- Lower-cased substring test in either direction, as in the third
matching round of `_find_folder`. -/
def substrEither (a b : String) : Bool :=
  listContainsSeq (strLower a).data (strLower b).data ||
    listContainsSeq (strLower b).data (strLower a).data

/-- `EmailClient._find_folder` (`src/mailer.py` lines 221-265): INBOX
short-circuits; `starred` is virtual (`None`); an empty folder
enumeration is `None`; otherwise exact match over the candidates, then
case-insensitive match, then substring match in either direction, then
the literal folder type, else `None`. -/
def findFolder (folderType : String) (availableFolders : List String) :
    Option String :=
  if strUpper folderType == "INBOX" then some "INBOX"
  else if strLower folderType == "starred" then none
  else if availableFolders.isEmpty then none
  else
    let possibleNames := folderCandidates folderType
    match possibleNames.find? (fun p => availableFolders.contains p) with
    | some p => some p
    | none =>
      match possibleNames.findSome?
          (fun p => availableFolders.find? fun a =>
            strLower p == strLower a) with
      | some a => some a
      | none =>
        match possibleNames.findSome?
            (fun p => availableFolders.find? fun a => substrEither p a) with
        | some a => some a
        | none =>
          if availableFolders.contains folderType then some folderType
          else none

/-- Spec-side resolution written from the claim's tier description
(exact tier, case-insensitive tier, substring tier, literal-role
fallback, each stopping at the first hit; NotFound when enumeration
failed), to be compared with the source-side `findFolder`. -/
def resolveTiersSpec (role : String) (enumerated : List String) :
    Option String :=
  if enumerated.isEmpty then none
  else
    let cands := folderCandidates role
    (cands.find? fun c => enumerated.contains c) <|>
    (cands.findSome? fun c =>
      enumerated.find? fun a => strLower c == strLower a) <|>
    (cands.findSome? fun c => enumerated.find? fun a => substrEither c a) <|>
    (if enumerated.contains role then some role else none)

/-- Task parameters: the string-valued entries of the `parameters`
dictionary handed to `TaskExecutor.execute_task`. -/
abbrev Params := List (String × String)

/-- Python's `parameters.get(k)`. -/
def pget (p : Params) (k : String) : Option String :=
  ((List.find? (fun kv => kv.1 == k)) p).map fun kv => kv.2

/-- The fixed key set of `TaskExecutor.task_handlers`
(`src/tasks.py` lines 49-66). -/
def taskHandlerKeys : List String :=
  [ "reply_email", "archive_email", "delete_email", "forward_email",
    "mark_read", "mark_unread", "summarize_email", "analyze_priority",
    "batch_classify", "move_email", "generate_reply", "list_emails",
    "search_email", "compose_email", "get_email_detail", "unknown" ]

/-- The parameter patch applied by `execute_task` for unknown intents
(`src/tasks.py` lines 82-84): ensure a `user_input` entry, defaulting to
`content` or the empty string. -/
def ensureUserInput (p : Params) : Params :=
  if (pget p "user_input").isSome then p
  else p ++ [("user_input", (pget p "content").getD "")]

/-- The prompt string built by `TaskExecutor.handle_unknown_intent`
(`src/tasks.py` lines 1354-1365). -/
def unknownPrompt (userInput : String) : String :=
  "你是一个智能邮件助手。用户输入了以下内容：\n\n\"" ++ userInput ++
  "\"\n\n这不是一个邮件管理任务（如查看、发送、搜索、归档邮件等）。请生成一个友好、自然的回复。\n\n" ++
  "如果是打招呼，友好地回应并介绍你的功能。\n如果是提问，尽量回答或引导用户使用正确的功能。\n" ++
  "如果是闲聊，简短回应并提醒用户你的主要功能。\n\n回复要简洁、友好、有帮助。"

/-- `TaskExecutor.handle_unknown_intent` (`src/tasks.py` lines
1332-1378): empty input yields a fixed failure envelope; otherwise the
AI chat call is tried and an exception there is converted to a fixed
failure envelope, so the handler itself never raises (it is a total
function). -/
def handleUnknownIntent (chat : String → Except String String)
    (p : Params) : TaskResult :=
  let userInput := (pget p "user_input").getD ((pget p "content").getD "")
  if userInput.isEmpty then
    ⟨false, "我无法理解您的请求，请提供更多信息。", none⟩
  else
    match chat (unknownPrompt userInput) with
    | .ok resp => ⟨true, resp, some (.fields [("ai_reply", resp)])⟩
    | .error _ =>
      ⟨false,
       "我无法理解您的请求。我是邮件助手，可以帮您管理邮件。您可以尝试：查看最近邮件、搜索邮件、发送邮件等。",
       none⟩

/-- Dictionary dispatch of `execute_task`: the `"unknown"` key is bound
to `handle_unknown_intent`; the other fifteen handlers are abstracted by
`handlers` (each may raise, which the caller catches). -/
def dispatchHandler (chat : String → Except String String)
    (handlers : String → Params → Except String TaskResult)
    (intent : String) (p : Params) : Except String TaskResult :=
  if intent = "unknown" then .ok (handleUnknownIntent chat p)
  else handlers intent p

/-- `TaskExecutor.execute_task` (`src/tasks.py` lines 68-95): an intent
outside the handler mapping is rewritten to `"unknown"` (patching
`user_input` into the parameters); the chosen handler runs inside a
`try` whose handler converts any exception into a
`{success: false, message: "任务执行异常: ...", data: None}` envelope. -/
def executeTask (chat : String → Except String String)
    (handlers : String → Params → Except String TaskResult)
    (intent : String) (p : Params) : TaskResult :=
  if taskHandlerKeys.contains intent then
    match dispatchHandler chat handlers intent p with
    | .ok r => r
    | .error e => ⟨false, "任务执行异常: " ++ e, none⟩
  else
    match dispatchHandler chat handlers "unknown" (ensureUserInput p) with
    | .ok r => r
    | .error e => ⟨false, "任务执行异常: " ++ e, none⟩

/-- Modelled from the spec: the repository sources under `src/` contain
no ReplyDraftCache implementation (the preview-confirm HTTP endpoints in
`src/server.py` send caller-supplied content directly and keep no staged
state), so the cache of §4.7 is modelled from the spec's words.  A
staged reply draft: drafted text plus the snapshot of the original
message's sender and subject, stamped with its staging time. -/
structure ReplyDraft where
  draftText : String
  senderAddr : String
  subject : String
  stagedAt : Nat
deriving DecidableEq

/-- Modelled from the spec: the draft cache, keyed by the stable
identity of the message being answered. -/
abbrev DraftCache := List (String × ReplyDraft)

/-- Modelled from the spec (§4.7 `stage`): store or overwrite the draft
for `identity`, stamped with the current time. -/
def stageDraft (cache : DraftCache) (identity : String)
    (text sender subject : String) (now : Nat) : DraftCache :=
  (identity, ⟨text, sender, subject, now⟩) ::
    cache.filter fun kv => kv.1 ≠ identity

/-- Modelled from the spec: one step of the most-recently-staged scan —
keep the entry with the later staging time. -/
def mrStep (acc : Option (String × ReplyDraft)) (kv : String × ReplyDraft) :
    Option (String × ReplyDraft) :=
  match acc with
  | none => some kv
  | some best =>
    if best.2.stagedAt < kv.2.stagedAt then some kv else acc

/-- Modelled from the spec (§4.7 `confirm` with no identity argument):
the most recently staged draft across all keys. -/
def mostRecentStaged (cache : DraftCache) :
    Option (String × ReplyDraft) :=
  cache.foldl mrStep none

/-- Modelled from the spec (§4.7 `confirm`): pick the draft for the
given identity, or the most recently staged one when no identity is
given; no staged draft yields failure (not an exception — the function
is total); on send success remove the entry and record the delivery, on
send failure retain the entry.  Returns (success, updated cache,
deliveries made). -/
def confirmDraft (send : ReplyDraft → Bool) (cache : DraftCache)
    (identity : Option String) :
    Bool × DraftCache × List (String × String) :=
  let entry :=
    match identity with
    | some i => cache.find? fun kv => kv.1 == i
    | none => mostRecentStaged cache
  match entry with
  | none => (false, cache, [])
  | some (k, d) =>
    if send d then
      (true, cache.filter (fun kv => kv.1 ≠ k), [(d.senderAddr, d.draftText)])
    else (false, cache, [])

/-- Shorthand for a concrete email record used in witness environments. -/
def mkEmail (id subject fromAddr : String) (date : Nat) : EmailInfo :=
  ⟨id, subject, fromAddr, "", date, "", false, false, none, none⟩

/-- Fetch table of the C1 counterexample mailbox: the token `"2"` is a
live UID whose message differs from ordinal 2 of the newest-first
snapshot over `["u1","u2","u3"]`. -/
def c1fetch : String → Option EmailInfo
  | "2" => some (mkEmail "2" "direct-uid-two" "a@example.com" 10)
  | "u1" => some (mkEmail "u1" "oldest" "b@example.com" 1)
  | "u2" => some (mkEmail "u2" "middle" "c@example.com" 2)
  | "u3" => some (mkEmail "u3" "newest" "d@example.com" 3)
  | _ => none

/-- The C1 counterexample mailbox. -/
def c1srv : MailServer := ⟨true, ["u1", "u2", "u3"], true, [], c1fetch⟩

/-- A mailbox on which every search fails and every fetch misses. -/
def emptySrv : MailServer := ⟨false, [], false, [], fun _ => none⟩

/-- Fetch table of the C7 witness mailbox: three messages with strictly
increasing timestamps in server (arrival) order. -/
def c7fetch : String → Option EmailInfo
  | "a" => some (mkEmail "a" "first" "p@example.com" 1)
  | "b" => some (mkEmail "b" "second" "q@example.com" 2)
  | "c" => some (mkEmail "c" "third" "r@example.com" 3)
  | _ => none

/-- The C7 witness mailbox. -/
def c7srv : MailServer := ⟨true, ["a", "b", "c"], true, [], c7fetch⟩

/-- Fetch table of the C10 witness mailbox: UID `"1"` has a
non-replyable sender, UID `"2"` a replyable one. -/
def c10fetch : String → Option EmailInfo
  | "1" => some (mkEmail "1" "bill" "No-Reply@bank.example" 5)
  | "2" => some (mkEmail "2" "hello" "friend@example.com" 6)
  | _ => none

/-- The C10 witness mailbox. -/
def c10srv : MailServer := ⟨true, ["1", "2"], true, [], c10fetch⟩

/-- The resolution of token `"1"` on `c10srv` (non-replyable sender). -/
def c10m0 : EmailInfo :=
  { mkEmail "1" "bill" "No-Reply@bank.example" 5 with
    originalUid := some "1" }

/-- The resolution of token `"2"` on `c10srv` (replyable sender). -/
def c10m1 : EmailInfo :=
  { mkEmail "2" "hello" "friend@example.com" 6 with
    originalUid := some "2" }

/-- An IMAP environment whose copy command raises, for the C3 witness. -/
def envCopyFail : ImapEnv :=
  ⟨true, true, true, fun _ => true, fun _ => .ok "OK", fun _ => none,
   fun _ _ => .error "copy refused", fun _ _ _ => .ok (), .ok ()⟩

/-- An IMAP environment where every command succeeds, for the C9
witness. -/
def envAllOk : ImapEnv :=
  ⟨true, true, true, fun _ => true, fun _ => .ok "OK",
   fun i => some (mkEmail i "s" "f@example.com" 1),
   fun _ _ => .ok "OK", fun _ _ _ => .ok (), .ok ()⟩

/-- The invariants a batch report must satisfy relative to its inputs:
exact accounting, one result per input, input order preserved, and each
item's status determined by its own outcome alone (so one item's error
never suppresses the entries of later items). -/
def reportInv (r : BatchReport) (inputs : List String) (okStatus : String)
    (outcome : String → Except String Bool) : Prop :=
  r.success + r.failed = r.total ∧
  r.total = inputs.length ∧
  r.results.length = r.total ∧
  r.results.map BatchItem.target = inputs ∧
  r.results = inputs.map fun x => ⟨x, itemStatus okStatus (outcome x)⟩

theorem batchLoop_results (o : String → Except String Bool) (k : String)
    (l : List String) :
    (batchLoop o k l).2.2 = l.map fun x => ⟨x, itemStatus k (o x)⟩ := by
  induction l with
  | nil => rfl
  | cons x xs ih =>
    cases h : o x with
    | ok b => cases b <;> simp [batchLoop, h, ih, itemStatus]
    | error e => simp [batchLoop, h, ih, itemStatus]

theorem batchLoop_counts (o : String → Except String Bool) (k : String)
    (l : List String) :
    (batchLoop o k l).1 + (batchLoop o k l).2.1 = l.length := by
  induction l with
  | nil => rfl
  | cons x xs ih =>
    cases h : o x with
    | ok b => cases b <;> simp [batchLoop, h] <;> omega
    | error e => simp [batchLoop, h]; omega

theorem reportInv_of_loop (outcome : String → Except String Bool)
    (okStatus : String) (inputs : List String) :
    reportInv ⟨inputs.length, (batchLoop outcome okStatus inputs).1,
               (batchLoop outcome okStatus inputs).2.1,
               (batchLoop outcome okStatus inputs).2.2⟩
      inputs okStatus outcome := by
  refine ⟨batchLoop_counts outcome okStatus inputs, rfl, ?_, ?_, ?_⟩
  · simp [batchLoop_results]
  · rw [batchLoop_results]
    induction inputs with
    | nil => rfl
    | cons x xs ih => simpa using ih
  · exact batchLoop_results outcome okStatus inputs

/-- C2: every batch operation (forward to N recipients;
archive/delete/mark over N ids) returns a report with
`success + failed = total`, `total` equal to the number of inputs,
`len(results) = total`, results in caller-supplied input order, and each
item's entry determined solely by its own outcome, so an error on one
item is recorded as that item's failure without dropping the remaining
items. -/
theorem C2_batch_report_invariants
    (fOut : String → Except String Bool) (recipients : List String)
    (aOut : String → String → Except String Bool) (folderName : String)
    (dOut mrOut muOut : String → Except String Bool) (ids : List String) :
    reportInv (batchForwardEmail fOut recipients) recipients "success" fOut ∧
    reportInv (batchArchiveEmails aOut ids folderName) ids "archived"
      (fun uid => aOut uid folderName) ∧
    reportInv (batchDeleteEmails dOut ids) ids "deleted" dOut ∧
    reportInv (batchMarkAsRead mrOut ids) ids "marked_read" mrOut ∧
    reportInv (batchMarkAsUnread muOut ids) ids "marked_unread" muOut :=
  ⟨reportInv_of_loop fOut "success" recipients,
   reportInv_of_loop (fun uid => aOut uid folderName) "archived" ids,
   reportInv_of_loop dOut "deleted" ids,
   reportInv_of_loop mrOut "marked_read" ids,
   reportInv_of_loop muOut "marked_unread" ids⟩

/-- C3: in `archive_email_to_folder` (and `move_email_to_folder`, which
delegates to it) the `\Deleted` flag and the expunge are issued only
when the preceding copy reported `"OK"`; if the copy raises or reports a
non-OK status, no deletion command is issued and the operation returns
failure. -/
theorem C3_archive_copy_then_flag (env : ImapEnv) (sel : Option String)
    (emailId folderName : String) :
    (issuesDeleteFlag (archiveEmailToFolderOp env sel emailId folderName).2
        emailId = true →
      env.copyRes emailId folderName = .ok "OK") ∧
    (issuesExpunge (archiveEmailToFolderOp env sel emailId folderName).2 =
        true →
      env.copyRes emailId folderName = .ok "OK") ∧
    (∀ e, env.copyRes emailId folderName = .error e →
      (archiveEmailToFolderOp env sel emailId folderName).1 = false ∧
      issuesDeleteFlag (archiveEmailToFolderOp env sel emailId folderName).2
        emailId = false ∧
      issuesExpunge
        (archiveEmailToFolderOp env sel emailId folderName).2 = false) ∧
    (∀ st, st ≠ "OK" → env.copyRes emailId folderName = .ok st →
      (archiveEmailToFolderOp env sel emailId folderName).1 = false ∧
      issuesDeleteFlag (archiveEmailToFolderOp env sel emailId folderName).2
        emailId = false ∧
      issuesExpunge
        (archiveEmailToFolderOp env sel emailId folderName).2 = false) ∧
    moveEmailToFolderOp env sel emailId folderName =
      archiveEmailToFolderOp env sel emailId folderName := by
  refine ⟨?_, ?_, ?_, ?_, rfl⟩ <;>
  · cases hconn : (!env.connected && !env.connectOk) with
    | true =>
      simp [archiveEmailToFolderOp, hconn, issuesDeleteFlag, issuesExpunge]
    | false =>
      cases hsel : env.selectRes Config.DEFAULT_FOLDER with
      | error e =>
        simp [archiveEmailToFolderOp, hconn, hsel, issuesDeleteFlag,
          issuesExpunge]
      | ok st =>
        cases hcopy : env.copyRes emailId folderName with
        | error e =>
          simp [archiveEmailToFolderOp, hconn, hsel, hcopy,
            issuesDeleteFlag, issuesExpunge]
        | ok cst =>
          by_cases hok : cst = "OK"
          · subst hok
            cases hstore : env.storeRes emailId "+FLAGS" "\\Deleted" with
            | error e =>
              simp [archiveEmailToFolderOp, hconn, hsel, hcopy, hstore,
                issuesDeleteFlag, issuesExpunge, eq_comm]
            | ok u =>
              cases hexp : env.expungeRes with
              | error e =>
                simp [archiveEmailToFolderOp, hconn, hsel, hcopy, hstore,
                  hexp, issuesDeleteFlag, issuesExpunge, eq_comm]
              | ok u2 =>
                simp [archiveEmailToFolderOp, hconn, hsel, hcopy, hstore,
                  hexp, issuesDeleteFlag, issuesExpunge, eq_comm]
          · simp [archiveEmailToFolderOp, hconn, hsel, hcopy, hok,
              issuesDeleteFlag, issuesExpunge]

/-- Witness for C3 at a concrete environment whose copy command raises:
the archive returns failure and issues neither the delete flag nor an
expunge. -/
theorem C3_witness :
    (archiveEmailToFolderOp envCopyFail none "7" "Archive").1 = false ∧
    issuesDeleteFlag
      (archiveEmailToFolderOp envCopyFail none "7" "Archive").2 "7" =
        false ∧
    issuesExpunge
      (archiveEmailToFolderOp envCopyFail none "7" "Archive").2 = false :=
  (C3_archive_copy_then_flag envCopyFail none "7" "Archive").2.2.1
    "copy refused" rfl

/-- C4: a task-layer batch call whose address list resolves to zero
messages returns `success=false` with the "no messages found" status
message (`"没有找到邮件"`) and no data payload, rather than an empty
report with `total=0`. -/
theorem C4_empty_batch (s : MailServer)
    (aOut : String → String → Except String Bool)
    (dOut : String → Except String Bool)
    (emailIds : List String) (folderName : String)
    (h : ∀ a ∈ emailIds, getEmailById s a = none) :
    archiveEmailsByIdsTask s aOut emailIds folderName =
      ⟨false, "没有找到邮件", none⟩ ∧
    deleteEmailsByIdsTask s dOut emailIds =
      ⟨false, "没有找到邮件", none⟩ := by
  have hnil : getEmailsByIds s emailIds = [] := by
    unfold getEmailsByIds
    exact List.filterMap_eq_nil_iff.mpr h
  constructor
  · simp [archiveEmailsByIdsTask, hnil]
  · simp [deleteEmailsByIdsTask, hnil]

/-- Witness for C4: on a mailbox where both searches fail and every
fetch misses, the id list `["9", "x"]` resolves to nothing and both
batch tasks return the "no messages found" failure envelope. -/
theorem C4_witness :
    archiveEmailsByIdsTask emptySrv (fun _ _ => .ok true) ["9", "x"]
        "Archive" = ⟨false, "没有找到邮件", none⟩ ∧
    deleteEmailsByIdsTask emptySrv (fun _ => .ok true) ["9", "x"] =
      ⟨false, "没有找到邮件", none⟩ :=
  C4_empty_batch emptySrv (fun _ _ => .ok true) (fun _ => .ok true)
    ["9", "x"] "Archive" (by decide)

/-- C5: `execute_task` always returns a `{success, message, data}`
envelope and never raises: an intent outside the fixed handler mapping
is routed to the fallback handler (with `user_input` patched into the
parameters), a handler exception is converted into a
`success=false` envelope carrying the exception text, and the fallback
handler itself returns a fixed failure envelope on empty input or on an
AI-service exception instead of raising. -/
theorem C5_dispatch_envelope (chat : String → Except String String)
    (handlers : String → Params → Except String TaskResult)
    (intent : String) (p : Params) :
    (taskHandlerKeys.contains intent = false →
      executeTask chat handlers intent p =
        handleUnknownIntent chat (ensureUserInput p)) ∧
    (∀ e, taskHandlerKeys.contains intent = true → intent ≠ "unknown" →
      handlers intent p = .error e →
      executeTask chat handlers intent p =
        ⟨false, "任务执行异常: " ++ e, none⟩) ∧
    (∀ r, taskHandlerKeys.contains intent = true → intent ≠ "unknown" →
      handlers intent p = .ok r →
      executeTask chat handlers intent p = r) ∧
    (executeTask chat handlers "unknown" p = handleUnknownIntent chat p) ∧
    (((pget p "user_input").getD ((pget p "content").getD "")).isEmpty =
        true →
      handleUnknownIntent chat p =
        ⟨false, "我无法理解您的请求，请提供更多信息。", none⟩) ∧
    (∀ err,
      ((pget p "user_input").getD ((pget p "content").getD "")).isEmpty =
        false →
      chat (unknownPrompt
        ((pget p "user_input").getD ((pget p "content").getD ""))) =
          .error err →
      handleUnknownIntent chat p =
        ⟨false,
         "我无法理解您的请求。我是邮件助手，可以帮您管理邮件。您可以尝试：查看最近邮件、搜索邮件、发送邮件等。",
         none⟩) := by
  refine ⟨?_, ?_, ?_, ?_, ?_, ?_⟩
  · intro hk
    have hk' : ¬taskHandlerKeys.contains intent = true := by
      simp only [hk]
      exact Bool.false_ne_true
    unfold executeTask
    rw [if_neg hk']
    simp [dispatchHandler]
  · intro e hk hne he
    unfold executeTask
    rw [if_pos hk]
    simp [dispatchHandler, hne, he]
  · intro r hk hne hr
    unfold executeTask
    rw [if_pos hk]
    simp [dispatchHandler, hne, hr]
  · unfold executeTask
    rw [if_pos (by decide : taskHandlerKeys.contains "unknown" = true)]
    simp [dispatchHandler]
  · intro hempty
    simp [handleUnknownIntent, hempty]
  · intro err hne hc
    simp [handleUnknownIntent, hne, hc]

/-- Witness for C5 at concrete inputs: the intent `"dance"` is outside
the mapping and routes to the fallback, and a raising `"reply_email"`
handler is converted into the standard failure envelope. -/
theorem C5_witness :
    executeTask (fun _ => .error "api down")
        (fun _ _ => .error "boom") "dance" [("content", "hi")] =
      handleUnknownIntent (fun _ => .error "api down")
        (ensureUserInput [("content", "hi")]) ∧
    executeTask (fun _ => .error "api down")
        (fun _ _ => .error "boom") "reply_email" [] =
      ⟨false, "任务执行异常: boom", none⟩ :=
  ⟨(C5_dispatch_envelope (fun _ => .error "api down")
      (fun _ _ => .error "boom") "dance" [("content", "hi")]).1 (by decide),
   (C5_dispatch_envelope (fun _ => .error "api down")
      (fun _ _ => .error "boom") "reply_email" []).2.1 "boom"
     (by decide) (by decide) rfl⟩

/-- C6: for every folder role other than the primary inbox role and
"starred", `_find_folder` implements exactly the claim's tier order
(exact candidate match, case-insensitive match, substring match in
either direction, then the literal role string), returning NotFound when
enumeration yields nothing or no tier matches; in particular role
`"archive"` resolves to `"Archive"` against `["INBOX","Archive"]` via
the exact tier (witnessed by the exact tier's own hit) and to
`"archiv"` against `["INBOX","archiv"]` via the substring tier
(witnessed by the exact and case-insensitive tiers missing while the
substring tier hits). -/
theorem C6_folder_resolution (role : String) (folders : List String) :
    (strUpper role ≠ "INBOX" → strLower role ≠ "starred" →
      findFolder role folders = resolveTiersSpec role folders) ∧
    (strUpper role ≠ "INBOX" → findFolder role [] = none) ∧
    findFolder "archive" ["INBOX", "Archive"] = some "Archive" ∧
    (folderCandidates "archive").find?
      (fun c => ["INBOX", "Archive"].contains c) = some "Archive" ∧
    findFolder "archive" ["INBOX", "archiv"] = some "archiv" ∧
    (folderCandidates "archive").find?
      (fun c => ["INBOX", "archiv"].contains c) = none ∧
    (folderCandidates "archive").findSome?
      (fun c => ["INBOX", "archiv"].find? fun a =>
        strLower c == strLower a) = none ∧
    (folderCandidates "archive").findSome?
      (fun c => ["INBOX", "archiv"].find? fun a => substrEither c a) =
      some "archiv" := by
  refine ⟨?_, ?_, by decide, by decide, by decide, by decide, by decide,
    by decide⟩
  · intro hub hlo
    have h1 : (strUpper role == "INBOX") = false :=
      beq_eq_false_iff_ne.mpr hub
    have h2 : (strLower role == "starred") = false :=
      beq_eq_false_iff_ne.mpr hlo
    unfold findFolder resolveTiersSpec
    simp only [h1, h2, Bool.false_eq_true, if_false]
    cases he : folders.isEmpty with
    | true => simp
    | false =>
      simp only [Bool.false_eq_true, if_false]
      cases h3 : (folderCandidates role).find?
          (fun p => folders.contains p) with
      | some p => simp [h3]
      | none =>
        simp only [h3, Option.none_orElse]
        cases h4 : (folderCandidates role).findSome?
            (fun p => folders.find? fun a => strLower p == strLower a) with
        | some a => simp [h4]
        | none =>
          simp only [h4, Option.none_orElse]
          cases h5 : (folderCandidates role).findSome?
              (fun p => folders.find? fun a => substrEither p a) with
          | some a => simp [h5]
          | none => simp [h5]
  · intro hub
    have h1 : (strUpper role == "INBOX") = false :=
      beq_eq_false_iff_ne.mpr hub
    unfold findFolder
    simp only [h1, Bool.false_eq_true, if_false]
    cases h2 : (strLower role == "starred") <;> simp [h2]

/-- Witness for C6 at the concrete role `"archive"`: the tier
equivalence instantiated at `["INBOX","archiv"]`, with both hypotheses
discharged. -/
theorem C6_witness :
    findFolder "archive" ["INBOX", "archiv"] =
      resolveTiersSpec "archive" ["INBOX", "archiv"] :=
  (C6_folder_resolution "archive" ["INBOX", "archiv"]).1 (by decide)
    (by decide)

theorem collectEmails_length (s : MailServer) (l : List String) (i : Nat)
    (h : ∀ uid ∈ l, (s.fetch uid).isSome = true) :
    (collectEmails s l i).length = l.length := by
  induction l generalizing i with
  | nil => rfl
  | cons uid rest ih =>
    obtain ⟨e, he⟩ :=
      Option.isSome_iff_exists.mp (h uid (List.mem_cons_self uid rest))
    simp [collectEmails, he,
      ih (i + 1) fun u hu => h u (List.mem_cons_of_mem uid hu)]

theorem collectEmails_uid (s : MailServer) (l : List String) (i : Nat)
    (h : ∀ uid ∈ l, (s.fetch uid).isSome = true) :
    (collectEmails s l i).map EmailInfo.originalUid = l.map some := by
  induction l generalizing i with
  | nil => rfl
  | cons uid rest ih =>
    obtain ⟨e, he⟩ :=
      Option.isSome_iff_exists.mp (h uid (List.mem_cons_self uid rest))
    simp [collectEmails, he,
      ih (i + 1) fun u hu => h u (List.mem_cons_of_mem uid hu)]

theorem collectEmails_index (s : MailServer) (l : List String) (i : Nat)
    (h : ∀ uid ∈ l, (s.fetch uid).isSome = true) :
    (collectEmails s l i).map EmailInfo.index =
      (List.range' i l.length).map some := by
  induction l generalizing i with
  | nil => rfl
  | cons uid rest ih =>
    obtain ⟨e, he⟩ :=
      Option.isSome_iff_exists.mp (h uid (List.mem_cons_self uid rest))
    simp [collectEmails, he, List.range',
      ih (i + 1) fun u hu => h u (List.mem_cons_of_mem uid hu)]

theorem collectEmails_date (s : MailServer) (l : List String) (i : Nat)
    (h : ∀ uid ∈ l, (s.fetch uid).isSome = true) :
    (collectEmails s l i).map EmailInfo.date = l.map (dateOf s) := by
  induction l generalizing i with
  | nil => rfl
  | cons uid rest ih =>
    obtain ⟨e, he⟩ :=
      Option.isSome_iff_exists.mp (h uid (List.mem_cons_self uid rest))
    simp [collectEmails, he, dateOf,
      ih (i + 1) fun u hu => h u (List.mem_cons_of_mem uid hu)]

/-- C7: for N ≥ 1, listing the N most recent messages takes the last N
identities of the (effective) search result — which falls back to the
unbounded search when the since-window search yields nothing — reverses
them to newest-first, and assigns ordinals 1..N in that order to every
returned message; when the search result is strictly ascending by
timestamp, ordinal 1 is strictly newest among the returned set.
Hypotheses: the search produced `ids` with at least N entries and every
listed UID fetches successfully (a fetch miss would make the listing
skip that entry while still consuming its ordinal). -/
theorem C7_listing (s : MailServer) (N : Nat) (ids : List String)
    (hN : 1 ≤ N) (hids : searchIds s = some ids) (hlen : N ≤ ids.length)
    (hfetch : ∀ uid ∈ ids, (s.fetch uid).isSome = true)
    (hasc : (ids.map (dateOf s)).Pairwise (· < ·)) :
    ∃ hd tl, getRecentEmails s N = hd :: tl ∧
      (hd :: tl).length = N ∧
      (hd :: tl).map EmailInfo.originalUid =
        ((ids.drop (ids.length - N)).reverse).map some ∧
      (hd :: tl).map EmailInfo.index = (List.range' 1 N).map some ∧
      hd.index = some 1 ∧
      (∀ e ∈ tl, e.date < hd.date) ∧
      (s.searchSince = [] → ids = s.searchAll) := by
  have hne : ids.isEmpty = false := by
    cases ids with
    | nil => exact absurd (Nat.le_trans hN hlen) (by simp)
    | cons a t => rfl
  have hrec : (if N < ids.length then lastSlice ids N else ids) =
      ids.drop (ids.length - N) := by
    by_cases hlt : N < ids.length
    · rw [if_pos hlt]
      unfold lastSlice
      rw [if_neg]
      simp only [beq_iff_eq]
      omega
    · rw [if_neg hlt]
      have : ids.length = N := Nat.le_antisymm (Nat.le_of_not_lt hlt) hlen
      rw [this, Nat.sub_self, List.drop_zero]
  have hget : getRecentEmails s N =
      collectEmails s ((ids.drop (ids.length - N)).reverse) 1 := by
    unfold getRecentEmails
    rw [hids]
    simp only [hne, Bool.false_eq_true, if_false]
    rw [hrec]
  have hfetch' :
      ∀ uid ∈ (ids.drop (ids.length - N)).reverse,
        (s.fetch uid).isSome = true := fun uid hu =>
    hfetch uid (List.drop_subset _ _ (List.mem_reverse.mp hu))
  have hlength : (getRecentEmails s N).length = N := by
    rw [hget, collectEmails_length s _ 1 hfetch']
    simp [Nat.sub_sub_self hlen]
  have hdates : (getRecentEmails s N).map EmailInfo.date =
      ((ids.map (dateOf s)).drop (ids.length - N)).reverse := by
    rw [hget, collectEmails_date s _ 1 hfetch', List.map_reverse,
      List.map_drop]
  have hpw : ((getRecentEmails s N).map EmailInfo.date).Pairwise
      (fun a b => b < a) := by
    rw [hdates]
    exact List.pairwise_reverse.mpr
      (List.Pairwise.sublist (List.drop_sublist _ _) hasc)
  obtain ⟨m, hm⟩ : ∃ m, N = m + 1 :=
    ⟨N - 1, (Nat.succ_pred_eq_of_pos hN).symm⟩
  cases hres : getRecentEmails s N with
  | nil =>
    rw [hres] at hlength
    simp at hlength
    exact False.elim (by omega)
  | cons hd tl =>
    have hidx : (hd :: tl).map EmailInfo.index =
        (List.range' 1 N).map some := by
      rw [← hres, hget, collectEmails_index s _ 1 hfetch']
      congr 1
      congr 1
      simp [Nat.sub_sub_self hlen]
    refine ⟨hd, tl, rfl, by rw [← hres]; exact hlength, ?_, hidx, ?_, ?_, ?_⟩
    · rw [← hres, hget, collectEmails_uid s _ 1 hfetch']
    · have := hidx
      rw [hm] at this
      simp only [List.range', List.map_cons] at this
      exact (List.cons.injEq _ _ _ _ ▸ this).1
    · intro e he
      have hpw' := hpw
      rw [hres, List.map_cons] at hpw'
      exact List.rel_of_pairwise_cons hpw'
        (List.mem_map_of_mem EmailInfo.date he)
    · intro hs
      unfold searchIds at hids
      rw [hs] at hids
      simp only [List.isEmpty_nil, Bool.not_true, Bool.and_false,
        Bool.false_eq_true, if_false] at hids
      cases hA : s.allOk with
      | true => rw [hA] at hids; simp at hids; exact hids.symm
      | false => rw [hA] at hids; simp at hids

/-- Witness for C7 at a concrete 3-message mailbox with strictly
ascending arrival timestamps, listing the 2 most recent. -/
theorem C7_witness :
    ∃ hd tl, getRecentEmails c7srv 2 = hd :: tl ∧
      (hd :: tl).length = 2 ∧
      (hd :: tl).map EmailInfo.originalUid =
        ((["a", "b", "c"].drop (["a", "b", "c"].length - 2)).reverse).map
          some ∧
      (hd :: tl).map EmailInfo.index = (List.range' 1 2).map some ∧
      hd.index = some 1 ∧
      (∀ e ∈ tl, e.date < hd.date) ∧
      (c7srv.searchSince = [] → ["a", "b", "c"] = c7srv.searchAll) :=
  C7_listing c7srv 2 ["a", "b", "c"] (by decide) (by decide) (by decide)
    (by decide) (by decide)

/-- C1 counterexample: on the mailbox `c1srv` the token `"2"` is a
positive integer string and the newest-first snapshot of size
`max(50, 2)` has at least 2 entries, yet `_get_email_by_id` does NOT
return the snapshot's ordinal-2 message — it returns the message
obtained by fetching `"2"` directly as a UID, because the direct-fetch
branch runs before the ordinal branch. -/
theorem C1_counterexample :
    isDigitString "2" = true ∧
    2 ≤ (getRecentEmails c1srv (max 50 2)).length ∧
    getEmailById c1srv "2" ≠ (getRecentEmails c1srv (max 50 2))[2 - 1]? :=
  ⟨by decide, by decide, by decide⟩

/-- C1 (amended): `"latest"` resolves to the head of a 1-item
newest-first snapshot; every other token is FIRST tried as a stable
identity by a direct fetch; only when the direct fetch fails and the
token is a positive integer string is it treated as a 1-based ordinal
into a newest-first snapshot of size `max(50, token)`, returning the
ordinal's entry when in range and NotFound when the ordinal exceeds the
snapshot length; a non-numeric token whose direct fetch fails is
NotFound. -/
theorem C1_amended (s : MailServer) (t : String) (info : EmailInfo)
    (n : Nat) :
    (t = "latest" → getEmailById s t = (getRecentEmails s 1).head?) ∧
    (t ≠ "latest" → s.fetch t = some info →
      getEmailById s t = some { info with originalUid := some t }) ∧
    (t ≠ "latest" → s.fetch t = none → isDigitString t = true →
      getEmailById s t = getEmailByIndex s (strToNat t) 50) ∧
    (t ≠ "latest" → s.fetch t = none → isDigitString t = false →
      getEmailById s t = none) ∧
    (1 ≤ n → (getRecentEmails s (max 50 n)).length < n →
      getEmailByIndex s n 50 = none) ∧
    (1 ≤ n → n ≤ (getRecentEmails s (max 50 n)).length →
      getEmailByIndex s n 50 = (getRecentEmails s (max 50 n))[n - 1]?) := by
  refine ⟨?_, ?_, ?_, ?_, ?_, ?_⟩
  · intro h
    subst h
    unfold getEmailById
    rw [if_pos rfl]
    cases hg : getRecentEmails s 1 with
    | nil => simp
    | cons e l => simp
  · intro hne hf
    simp [getEmailById, hne, hf]
  · intro hne hf hd
    simp [getEmailById, hne, hf, hd]
  · intro hne hf hd
    simp [getEmailById, hne, hf, hd]
  · intro h1 h2
    unfold getEmailByIndex
    dsimp only
    split
    · rfl
    · next hcond =>
      exfalso
      simp at hcond
      omega
  · intro h1 h2
    unfold getEmailByIndex
    dsimp only
    split
    · next hcond =>
      exfalso
      have hne : (getRecentEmails s (max 50 n)).isEmpty = false := by
        cases hg : getRecentEmails s (max 50 n) with
        | nil => rw [hg] at h2; simp at h2; omega
        | cons e l => rfl
      rw [hne] at hcond
      simp at hcond
      omega
    · rfl

/-- Witness for C1 (amended) on the concrete mailbox `c1srv`: the
`"latest"` clause and the in-range ordinal clause, with their
hypotheses discharged. -/
theorem C1_witness :
    getEmailById c1srv "latest" = (getRecentEmails c1srv 1).head? ∧
    getEmailByIndex c1srv 2 50 = (getRecentEmails c1srv (max 50 2))[2 - 1]? :=
  ⟨(C1_amended c1srv "latest" (mkEmail "" "" "" 0) 2).1 rfl,
   (C1_amended c1srv "x" (mkEmail "" "" "" 0) 2).2.2.2.2.2 (by decide)
     (by decide)⟩

theorem getEmailOp_folders (env : ImapEnv) (sel : Option String)
    (emailId : String) :
    (∀ f ∈ selectTargets (getEmailOp env sel emailId).2,
      f = Config.DEFAULT_FOLDER) ∧
    (∀ g ∈ dataFolders (getEmailOp env sel emailId).2,
      g = some Config.DEFAULT_FOLDER) := by
  cases he : env.ensureOk with
  | false => simp [getEmailOp, he, selectTargets, dataFolders]
  | true =>
    cases hp : env.selectProc Config.DEFAULT_FOLDER with
    | false => simp [getEmailOp, he, hp, selectTargets, dataFolders]
    | true =>
      cases hf : env.fetchRes emailId with
      | none => simp [getEmailOp, he, hp, hf, selectTargets, dataFolders]
      | some info =>
        simp [getEmailOp, he, hp, hf, selectTargets, dataFolders]

theorem deleteEmailOp_folders (env : ImapEnv) (sel : Option String)
    (emailId : String) :
    (∀ f ∈ selectTargets (deleteEmailOp env sel emailId).2,
      f = Config.DEFAULT_FOLDER) ∧
    (env.selectRes Config.DEFAULT_FOLDER = .ok "OK" →
      ∀ g ∈ dataFolders (deleteEmailOp env sel emailId).2,
        g = some Config.DEFAULT_FOLDER) := by
  cases hconn : (!env.connected && !env.connectOk) with
  | true => simp [deleteEmailOp, hconn, selectTargets, dataFolders]
  | false =>
    cases hsel : env.selectRes Config.DEFAULT_FOLDER with
    | error e => simp [deleteEmailOp, hconn, hsel, selectTargets, dataFolders]
    | ok st =>
      cases hstore : env.storeRes emailId "+FLAGS" "\\Deleted" with
      | error e =>
        constructor
        · simp [deleteEmailOp, hconn, hsel, hstore, selectTargets,
            dataFolders]
        · intro hOK
          injection hOK with hst
          subst hst
          simp [deleteEmailOp, hconn, hsel, hstore, selectTargets,
            dataFolders, selAfter]
      | ok u =>
        cases hexp : env.expungeRes with
        | error e =>
          constructor
          · simp [deleteEmailOp, hconn, hsel, hstore, hexp, selectTargets,
              dataFolders]
          · intro hOK
            injection hOK with hst
            subst hst
            simp [deleteEmailOp, hconn, hsel, hstore, hexp, selectTargets,
              dataFolders, selAfter]
        | ok u2 =>
          constructor
          · simp [deleteEmailOp, hconn, hsel, hstore, hexp, selectTargets,
              dataFolders]
          · intro hOK
            injection hOK with hst
            subst hst
            simp [deleteEmailOp, hconn, hsel, hstore, hexp, selectTargets,
              dataFolders, selAfter]

theorem archiveEmailToFolderOp_folders (env : ImapEnv)
    (sel : Option String) (emailId folderName : String) :
    (∀ f ∈ selectTargets
        (archiveEmailToFolderOp env sel emailId folderName).2,
      f = Config.DEFAULT_FOLDER) ∧
    (env.selectRes Config.DEFAULT_FOLDER = .ok "OK" →
      ∀ g ∈ dataFolders
          (archiveEmailToFolderOp env sel emailId folderName).2,
        g = some Config.DEFAULT_FOLDER) := by
  cases hconn : (!env.connected && !env.connectOk) with
  | true => simp [archiveEmailToFolderOp, hconn, selectTargets, dataFolders]
  | false =>
    cases hsel : env.selectRes Config.DEFAULT_FOLDER with
    | error e =>
      simp [archiveEmailToFolderOp, hconn, hsel, selectTargets, dataFolders]
    | ok st =>
      cases hcopy : env.copyRes emailId folderName with
      | error e =>
        constructor
        · simp [archiveEmailToFolderOp, hconn, hsel, hcopy, selectTargets,
            dataFolders]
        · intro hOK
          injection hOK with hst
          subst hst
          simp [archiveEmailToFolderOp, hconn, hsel, hcopy, selectTargets,
            dataFolders, selAfter]
      | ok cst =>
        by_cases hok : cst = "OK"
        · subst hok
          cases hstore : env.storeRes emailId "+FLAGS" "\\Deleted" with
          | error e =>
            constructor
            · simp [archiveEmailToFolderOp, hconn, hsel, hcopy, hstore,
                selectTargets, dataFolders]
            · intro hOK
              injection hOK with hst
              subst hst
              simp [archiveEmailToFolderOp, hconn, hsel, hcopy, hstore,
                selectTargets, dataFolders, selAfter]
          | ok u =>
            cases hexp : env.expungeRes with
            | error e =>
              constructor
              · simp [archiveEmailToFolderOp, hconn, hsel, hcopy, hstore,
                  hexp, selectTargets, dataFolders]
              · intro hOK
                injection hOK with hst
                subst hst
                simp [archiveEmailToFolderOp, hconn, hsel, hcopy, hstore,
                  hexp, selectTargets, dataFolders, selAfter]
            | ok u2 =>
              constructor
              · simp [archiveEmailToFolderOp, hconn, hsel, hcopy, hstore,
                  hexp, selectTargets, dataFolders]
              · intro hOK
                injection hOK with hst
                subst hst
                simp [archiveEmailToFolderOp, hconn, hsel, hcopy, hstore,
                  hexp, selectTargets, dataFolders, selAfter]
        · constructor
          · simp [archiveEmailToFolderOp, hconn, hsel, hcopy, hok,
              selectTargets, dataFolders]
          · intro hOK
            injection hOK with hst
            subst hst
            simp [archiveEmailToFolderOp, hconn, hsel, hcopy, hok,
              selectTargets, dataFolders, selAfter]

theorem markEmailAsReadOp_folders (env : ImapEnv) (sel : Option String)
    (emailId : String) :
    (∀ f ∈ selectTargets (markEmailAsReadOp env sel emailId).2,
      f = Config.DEFAULT_FOLDER) ∧
    (env.selectRes Config.DEFAULT_FOLDER = .ok "OK" →
      ∀ g ∈ dataFolders (markEmailAsReadOp env sel emailId).2,
        g = some Config.DEFAULT_FOLDER) := by
  cases hconn : (!env.connected && !env.connectOk) with
  | true => simp [markEmailAsReadOp, hconn, selectTargets, dataFolders]
  | false =>
    cases hsel : env.selectRes Config.DEFAULT_FOLDER with
    | error e =>
      simp [markEmailAsReadOp, hconn, hsel, selectTargets, dataFolders]
    | ok st =>
      cases hstore : env.storeRes emailId "+FLAGS" "\\Seen" with
      | error e =>
        constructor
        · simp [markEmailAsReadOp, hconn, hsel, hstore, selectTargets,
            dataFolders]
        · intro hOK
          injection hOK with hst
          subst hst
          simp [markEmailAsReadOp, hconn, hsel, hstore, selectTargets,
            dataFolders, selAfter]
      | ok u =>
        constructor
        · simp [markEmailAsReadOp, hconn, hsel, hstore, selectTargets,
            dataFolders]
        · intro hOK
          injection hOK with hst
          subst hst
          simp [markEmailAsReadOp, hconn, hsel, hstore, selectTargets,
            dataFolders, selAfter]

theorem markEmailAsUnreadOp_folders (env : ImapEnv) (sel : Option String)
    (emailId : String) :
    (∀ f ∈ selectTargets (markEmailAsUnreadOp env sel emailId).2,
      f = Config.DEFAULT_FOLDER) ∧
    (env.selectRes Config.DEFAULT_FOLDER = .ok "OK" →
      ∀ g ∈ dataFolders (markEmailAsUnreadOp env sel emailId).2,
        g = some Config.DEFAULT_FOLDER) := by
  cases hconn : (!env.connected && !env.connectOk) with
  | true => simp [markEmailAsUnreadOp, hconn, selectTargets, dataFolders]
  | false =>
    cases hsel : env.selectRes Config.DEFAULT_FOLDER with
    | error e =>
      simp [markEmailAsUnreadOp, hconn, hsel, selectTargets, dataFolders]
    | ok st =>
      cases hstore : env.storeRes emailId "-FLAGS" "\\Seen" with
      | error e =>
        constructor
        · simp [markEmailAsUnreadOp, hconn, hsel, hstore, selectTargets,
            dataFolders]
        · intro hOK
          injection hOK with hst
          subst hst
          simp [markEmailAsUnreadOp, hconn, hsel, hstore, selectTargets,
            dataFolders, selAfter]
      | ok u =>
        constructor
        · simp [markEmailAsUnreadOp, hconn, hsel, hstore, selectTargets,
            dataFolders]
        · intro hOK
          injection hOK with hst
          subst hst
          simp [markEmailAsUnreadOp, hconn, hsel, hstore, selectTargets,
            dataFolders, selAfter]

/-- C9: every single-message operation (`get_email`, `delete_email`,
`archive_email_to_folder`, `mark_email_as_read`, `mark_email_as_unread`
and `move_email_to_folder`, which delegates to archive) selects only the
configured default folder (`Config.DEFAULT_FOLDER = "INBOX"`) and,
whenever that select reports OK, performs all its data commands with
INBOX selected — for every previously selected folder `sel`, so a
message id obtained by listing another folder is interpreted as an id
within INBOX.  `get_email`'s behaviour is moreover literally independent
of the prior selection. -/
theorem C9_default_folder (env : ImapEnv) (sel sel' : Option String)
    (emailId folderName : String) :
    (∀ f ∈ selectTargets (getEmailOp env sel emailId).2,
      f = Config.DEFAULT_FOLDER) ∧
    (∀ f ∈ selectTargets (deleteEmailOp env sel emailId).2,
      f = Config.DEFAULT_FOLDER) ∧
    (∀ f ∈ selectTargets
        (archiveEmailToFolderOp env sel emailId folderName).2,
      f = Config.DEFAULT_FOLDER) ∧
    (∀ f ∈ selectTargets (markEmailAsReadOp env sel emailId).2,
      f = Config.DEFAULT_FOLDER) ∧
    (∀ f ∈ selectTargets (markEmailAsUnreadOp env sel emailId).2,
      f = Config.DEFAULT_FOLDER) ∧
    (∀ g ∈ dataFolders (getEmailOp env sel emailId).2,
      g = some Config.DEFAULT_FOLDER) ∧
    (env.selectRes Config.DEFAULT_FOLDER = .ok "OK" →
      (∀ g ∈ dataFolders (deleteEmailOp env sel emailId).2,
        g = some Config.DEFAULT_FOLDER) ∧
      (∀ g ∈ dataFolders
          (archiveEmailToFolderOp env sel emailId folderName).2,
        g = some Config.DEFAULT_FOLDER) ∧
      (∀ g ∈ dataFolders (markEmailAsReadOp env sel emailId).2,
        g = some Config.DEFAULT_FOLDER) ∧
      (∀ g ∈ dataFolders (markEmailAsUnreadOp env sel emailId).2,
        g = some Config.DEFAULT_FOLDER)) ∧
    getEmailOp env sel emailId = getEmailOp env sel' emailId ∧
    moveEmailToFolderOp env sel emailId folderName =
      archiveEmailToFolderOp env sel emailId folderName := by
  refine ⟨(getEmailOp_folders env sel emailId).1,
    (deleteEmailOp_folders env sel emailId).1,
    (archiveEmailToFolderOp_folders env sel emailId folderName).1,
    (markEmailAsReadOp_folders env sel emailId).1,
    (markEmailAsUnreadOp_folders env sel emailId).1,
    (getEmailOp_folders env sel emailId).2, ?_, rfl, rfl⟩
  intro hOK
  exact ⟨(deleteEmailOp_folders env sel emailId).2 hOK,
    (archiveEmailToFolderOp_folders env sel emailId folderName).2 hOK,
    (markEmailAsReadOp_folders env sel emailId).2 hOK,
    (markEmailAsUnreadOp_folders env sel emailId).2 hOK⟩

/-- Witness for C9 at a concrete all-OK environment with a previously
selected `"sent"` folder: the delete operation's data commands all run
with INBOX selected. -/
theorem C9_witness :
    ∀ g ∈ dataFolders (deleteEmailOp envAllOk (some "sent") "42").2,
      g = some Config.DEFAULT_FOLDER :=
  ((C9_default_folder envAllOk (some "sent") none "42" "Archive").2.2.2.2.2.2.1
    rfl).1

theorem findReplyable_hit (s : MailServer) (tok : String)
    (hd : isDigitString tok = true) :
    ∀ (fuel j attempt : Nat) (m : EmailInfo), j < fuel →
      (∀ k, k < j →
        ∃ mk, getEmailById s (toString (strToNat tok + attempt + k)) =
            some mk ∧ isNonReplyable mk.fromAddr = true) →
      getEmailById s (toString (strToNat tok + attempt + j)) = some m →
      isNonReplyable m.fromAddr = false →
      findReplyable s tok fuel attempt = some m := by
  intro fuel
  induction fuel with
  | zero => intro j attempt m hj; omega
  | succ f ih =>
    intro j attempt m hj hks hm hnr
    cases j with
    | zero =>
      rw [Nat.add_zero] at hm
      unfold findReplyable
      simp [hd, hm, hnr]
    | succ j' =>
      obtain ⟨m0, hm0, hnr0⟩ := hks 0 (Nat.succ_pos j')
      rw [Nat.add_zero] at hm0
      unfold findReplyable
      simp only [hd, if_true, hm0, hnr0, if_pos]
      apply ih j' (attempt + 1) m (by omega)
      · intro k hk
        obtain ⟨mk, h1, h2⟩ := hks (k + 1) (by omega)
        refine ⟨mk, ?_, h2⟩
        rw [show strToNat tok + (attempt + 1) + k =
          strToNat tok + attempt + (k + 1) from by omega]
        exact h1
      · rw [show strToNat tok + (attempt + 1) + j' =
          strToNat tok + attempt + (j' + 1) from by omega]
        exact hm
      · exact hnr

theorem findReplyable_exhaust (s : MailServer) (tok : String)
    (hd : isDigitString tok = true) :
    ∀ (fuel attempt : Nat),
      (∀ k, k < fuel →
        ∃ mk, getEmailById s (toString (strToNat tok + attempt + k)) =
            some mk ∧ isNonReplyable mk.fromAddr = true) →
      findReplyable s tok fuel attempt = none := by
  intro fuel
  induction fuel with
  | zero => intro attempt _; rfl
  | succ f ih =>
    intro attempt hks
    obtain ⟨m0, hm0, hnr0⟩ := hks 0 (Nat.succ_pos f)
    rw [Nat.add_zero] at hm0
    unfold findReplyable
    simp only [hd, if_true, hm0, hnr0, if_pos]
    apply ih (attempt + 1)
    intro k hk
    obtain ⟨mk, h1, h2⟩ := hks (k + 1) (by omega)
    refine ⟨mk, ?_, h2⟩
    rw [show strToNat tok + (attempt + 1) + k =
      strToNat tok + attempt + (k + 1) from by omega]
    exact h1

/-- C10: `reply_to_email` given a numeric token whose resolved messages
have non-replyable senders silently advances through consecutive tokens
(token, token+1, ...) up to 5 attempts and replies to the first message
whose sender is replyable; for a non-numeric token only one attempt is
made; when no replyable message is found within the attempt budget it
returns success=false with a listing of recent messages and delivers
nothing. -/
theorem C10_reply_skip (s : MailServer) (sendOk : String → String → Bool)
    (gen : String → String) (tok : String) (custom : Option String) :
    (∀ j m, isDigitString tok = true → j < 5 →
      (∀ k, k < j →
        ∃ mk, getEmailById s (toString (strToNat tok + k)) = some mk ∧
          isNonReplyable mk.fromAddr = true) →
      getEmailById s (toString (strToNat tok + j)) = some m →
      isNonReplyable m.fromAddr = false →
      sendOk m.fromAddr (replyContent gen custom m) = true →
      replyToEmail s sendOk gen tok custom =
        (⟨true, "已成功回复邮件: " ++ m.subject,
          some (.fields [("email_id", tok), ("subject", m.subject),
                         ("reply_content", replyContent gen custom m)])⟩,
         [(m.fromAddr, replyContent gen custom m)])) ∧
    (∀ m, isDigitString tok = false → getEmailById s tok = some m →
      isNonReplyable m.fromAddr = true →
      replyToEmail s sendOk gen tok custom =
        (replyFailureListing s tok, [])) ∧
    (isDigitString tok = true →
      (∀ k, k < 5 →
        ∃ mk, getEmailById s (toString (strToNat tok + k)) = some mk ∧
          isNonReplyable mk.fromAddr = true) →
      replyToEmail s sendOk gen tok custom =
        (replyFailureListing s tok, [])) ∧
    (replyFailureListing s tok).success = false := by
  refine ⟨?_, ?_, ?_, rfl⟩
  · intro j m hd hj hks hm hnr hsend
    have hfr : findReplyable s tok 5 0 = some m := by
      apply findReplyable_hit s tok hd 5 j 0 m hj
      · intro k hk
        obtain ⟨mk, h1, h2⟩ := hks k hk
        refine ⟨mk, ?_, h2⟩
        rw [show strToNat tok + 0 + k = strToNat tok + k from by omega]
        exact h1
      · rw [show strToNat tok + 0 + j = strToNat tok + j from by omega]
        exact hm
      · exact hnr
    simp [replyToEmail, hd, hfr, hsend]
  · intro m hd hm hnr
    have hfr : findReplyable s tok 1 0 = none := by
      unfold findReplyable
      simp only [hd, Bool.false_eq_true, if_false, hm, hnr, if_pos]
      rfl
    simp [replyToEmail, hd, hfr]
  · intro hd hks
    have hfr : findReplyable s tok 5 0 = none := by
      apply findReplyable_exhaust s tok hd 5 0
      intro k hk
      obtain ⟨mk, h1, h2⟩ := hks k hk
      refine ⟨mk, ?_, h2⟩
      rw [show strToNat tok + 0 + k = strToNat tok + k from by omega]
      exact h1
    simp [replyToEmail, hd, hfr]

/-- Witness for C10 on the concrete mailbox `c10srv`: token `"1"`
resolves to a no-reply sender, the loop advances to token `"2"` and the
reply is delivered to that message's (replyable) sender. -/
theorem C10_witness :
    replyToEmail c10srv (fun _ _ => true) (fun _ => "ok") "1"
        (some "Thanks!") =
      (⟨true, "已成功回复邮件: " ++ c10m1.subject,
        some (.fields [("email_id", "1"), ("subject", c10m1.subject),
          ("reply_content",
            replyContent (fun _ => "ok") (some "Thanks!") c10m1)])⟩,
       [(c10m1.fromAddr,
         replyContent (fun _ => "ok") (some "Thanks!") c10m1)]) :=
  (C10_reply_skip c10srv (fun _ _ => true) (fun _ => "ok") "1"
      (some "Thanks!")).1 1 c10m1 (by decide) (by decide)
    (fun k hk => by
      have hk0 : k = 0 := by omega
      subst hk0
      exact ⟨c10m0, by decide, by decide⟩)
    (by decide) (by decide) rfl

theorem foldl_mrStep_stale (k : String) (d : ReplyDraft) :
    ∀ rest : DraftCache, (∀ kv ∈ rest, kv.2.stagedAt < d.stagedAt) →
      rest.foldl mrStep (some (k, d)) = some (k, d) := by
  intro rest
  induction rest with
  | nil => intro _; rfl
  | cons kv rest' ih =>
    intro h
    have h1 : kv.2.stagedAt < d.stagedAt := h kv (List.mem_cons_self kv rest')
    have hstep : mrStep (some (k, d)) kv = some (k, d) := by
      show (if d.stagedAt < kv.2.stagedAt then some kv else some (k, d)) =
        some (k, d)
      rw [if_neg (by omega)]
    rw [List.foldl_cons, hstep]
    exact ih fun kv' h' => h kv' (List.mem_cons_of_mem kv h')

theorem mostRecentStaged_stage (cache : DraftCache)
    (X text sender subject : String) (now : Nat)
    (hfresh : ∀ kv ∈ cache, kv.2.stagedAt < now) :
    mostRecentStaged (stageDraft cache X text sender subject now) =
      some (X, ⟨text, sender, subject, now⟩) := by
  unfold mostRecentStaged stageDraft
  rw [List.foldl_cons]
  apply foldl_mrStep_stale
  intro kv hkv
  exact hfresh kv (List.mem_of_mem_filter hkv)

theorem filter_ne_idem (cache : DraftCache) (X : String) :
    (cache.filter fun kv => kv.1 ≠ X).filter (fun kv => kv.1 ≠ X) =
      cache.filter fun kv => kv.1 ≠ X := by
  induction cache with
  | nil => rfl
  | cons kv t ih =>
    by_cases h : kv.1 = X
    · simp [List.filter_cons, h, ih]
    · simp [List.filter_cons, h, ih]

/-- C8 (the ReplyDraftCache does not exist under `src/`, so `stageDraft`
and `confirmDraft` are modelled from the spec §4.7): after staging a
draft for identity X over a cache of strictly older entries, a confirm
with no identity argument sends X's staged content to the snapshotted
sender exactly once and removes the entry; a confirm with no staged
draft present returns failure (the function is total, so no exception);
on send failure the staged entry is retained so a retry is possible. -/
theorem C8_draft_confirm (cache : DraftCache)
    (X text sender subject : String) (now : Nat) (send : ReplyDraft → Bool)
    (hfresh : ∀ kv ∈ cache, kv.2.stagedAt < now) :
    (send ⟨text, sender, subject, now⟩ = true →
      confirmDraft send (stageDraft cache X text sender subject now) none =
        (true, cache.filter (fun kv => kv.1 ≠ X), [(sender, text)])) ∧
    confirmDraft send [] none = (false, [], []) ∧
    (send ⟨text, sender, subject, now⟩ = false →
      confirmDraft send (stageDraft cache X text sender subject now) none =
        (false, stageDraft cache X text sender subject now, [])) := by
  have hmr := mostRecentStaged_stage cache X text sender subject now hfresh
  refine ⟨?_, rfl, ?_⟩
  · intro hsend
    unfold confirmDraft
    simp only [hmr, hsend, if_pos]
    have hfil : (stageDraft cache X text sender subject now).filter
        (fun kv => kv.1 ≠ X) = cache.filter fun kv => kv.1 ≠ X := by
      unfold stageDraft
      rw [List.filter_cons]
      rw [if_neg (by simp)]
      exact filter_ne_idem cache X
    rw [hfil]
  · intro hsend
    unfold confirmDraft
    simp [hmr, hsend]

/-- Witness for C8: staging over the empty cache and confirming with a
succeeding sender delivers the draft exactly once; the follow-up confirm
on the now-empty cache fails without raising. -/
theorem C8_witness :
    confirmDraft (fun _ => true)
        (stageDraft [] "X" "draft body" "alice@example.com" "Hi" 3) none =
      (true, [], [("alice@example.com", "draft body")]) ∧
    confirmDraft (fun _ => true) [] none = (false, [], []) :=
  ⟨(C8_draft_confirm [] "X" "draft body" "alice@example.com" "Hi" 3
      (fun _ => true) (by simp)).1 rfl,
   (C8_draft_confirm [] "X" "draft body" "alice@example.com" "Hi" 3
      (fun _ => true) (by simp)).2.1⟩

end MailAgent
